import Mathlib

/-!
Shallow embedding of the AUTOCLAVE control core (MicroPython sources):
- lib/config.py: safety limits and pressure calibration constants.
- lib/core/brain.py: the safety-gate decision function step_once().
- lib/drivers/sensors.py: pressure voltage mapping and MAX31855 decoding.
- lib/core/actuator.py: the auto-cycle actuator state machine.

Python floats are modelled as rationals plus a distinguished NaN value
(the comparisons used by the code all return False when NaN is involved,
exactly as IEEE comparisons do). Python ints are unbounded, so ticks and
raw words are modelled as Int and Nat respectively.
-/

namespace Autoclave

/-- A Python float as used by this code base: either a rational value or
the NaN sentinel. Every comparison involving NaN is false, as in IEEE. -/
inductive PyFloat where
  | nan : PyFloat
  | num : ℚ → PyFloat
deriving DecidableEq

/-- Python `a < b` on floats: false whenever either side is NaN. -/
def PyFloat.lt : PyFloat → PyFloat → Bool
  | .num a, .num b => decide (a < b)
  | _, _ => false

/-- Python `a >= b` on floats: false whenever either side is NaN. -/
def PyFloat.ge : PyFloat → PyFloat → Bool
  | .num a, .num b => decide (b ≤ a)
  | _, _ => false

/-! ## lib/config.py constants -/

/-- config.APP_MAX_TEMP_C = 125.0 -/
def APP_MAX_TEMP_C : ℚ := 125

/-- config.APP_MAX_PRESSURE_KGCM2 = 1.41 -/
def APP_MAX_PRESSURE_KGCM2 : ℚ := 141/100

/-- config.PRESSURE_V_PIN_MIN = 0.334 -/
def PRESSURE_V_PIN_MIN : ℚ := 334/1000

/-- config.PRESSURE_V_PIN_MAX = 2.997 -/
def PRESSURE_V_PIN_MAX : ℚ := 2997/1000

/-- config.PRESSURE_P_MIN_KGCM2 = 0.0 -/
def PRESSURE_P_MIN_KGCM2 : ℚ := 0

/-- config.PRESSURE_P_MAX_KGCM2 = 2.10 -/
def PRESSURE_P_MAX_KGCM2 : ℚ := 210/100

/-! ## lib/core/brain.py -/

/-- The temperature gate of brain.step_once (brain.py lines 36-41):
allow_heat starts False and is set True only when the reading is not None
and `0.0 < t_c < config.APP_MAX_TEMP_C` holds (Python chained comparison,
false when t_c is NaN). -/
def temp_gate : Option PyFloat → Bool
  | none => false
  | some t => PyFloat.lt (.num 0) t && PyFloat.lt t (.num APP_MAX_TEMP_C)

/-- The pressure gate of brain.step_once (brain.py lines 43-48): if the
reading is None, allow_heat is forced False; otherwise allow_heat is forced
False when `p_kg >= config.APP_MAX_PRESSURE_KGCM2` (false when p_kg is NaN,
in which case allow_heat passes through unchanged). -/
def pressure_gate (allow_heat : Bool) : Option PyFloat → Bool
  | none => false
  | some p => if PyFloat.ge p (.num APP_MAX_PRESSURE_KGCM2) then false else allow_heat

/-- The pair of module-level outputs written by brain.step_once:
_allow_heat (exposed by get_allow_heat) and _ssr_on (exposed by
get_ssr_state and driven to control.set_ssr). -/
structure Decision where
  allow_heat : Bool
  ssr_on : Bool
deriving DecidableEq

/-- brain.step_once (brain.py lines 22-62) as a pure function of the two
sensor readings and config.HEAT_ENABLE: the temperature gate, then the
pressure gate, then `_ssr_on = allow_heat if HEAT_ENABLE else False`. -/
def step_once (t_c p_kg : Option PyFloat) (heat_enable : Bool) : Decision :=
  let allow_heat := pressure_gate (temp_gate t_c) p_kg
  ⟨allow_heat, if heat_enable then allow_heat else false⟩

/-! ## lib/drivers/sensors.py -/

/-- sensors._map_voltage_to_kgcm2 (sensors.py lines 49-64), parametrised by
the four calibration constants it reads from config: NaN when the voltage
span is not positive, otherwise the [0,1]-clamped linear interpolation. -/
def map_voltage_to_kgcm2_cal (v_min v_max p_min p_max v : ℚ) : PyFloat :=
  let span_v := v_max - v_min
  if span_v ≤ 0 then .nan
  else
    let r0 := (v - v_min) / span_v
    let r := if r0 < 0 then 0 else if r0 > 1 then 1 else r0
    let span_p := p_max - p_min
    .num (p_min + r * span_p)

/-- sensors._map_voltage_to_kgcm2 at the concrete config calibration. -/
def map_voltage_to_kgcm2 (v : ℚ) : PyFloat :=
  map_voltage_to_kgcm2_cal PRESSURE_V_PIN_MIN PRESSURE_V_PIN_MAX
    PRESSURE_P_MIN_KGCM2 PRESSURE_P_MAX_KGCM2 v

/-- sensors.read_pressure_kgcm2 on real hardware (sensors.py lines 67-77):
float("nan") when the ADC read returns None, otherwise the voltage mapping.
Note the function returns a float in every case, never Python None. -/
def read_pressure_kgcm2_hw (volts : Option ℚ) : PyFloat :=
  match volts with
  | none => .nan
  | some v => map_voltage_to_kgcm2 v

/-- sensors._decode_tc_c_from_raw (sensors.py lines 82-103): composite fault
from bit 16; 14-bit field from bits [31:18]; when bit 13 of the field is set
the code ORs in 0xC000 (the code's "sign-extend to 16 bits" step, applied to
an unbounded non-negative Python int); NaN on fault, else field * 0.25. -/
def decode_tc_c_from_raw (raw : ℕ) : PyFloat :=
  let fault : Bool := decide (raw &&& 0x00010000 ≠ 0)
  let tc14 : ℕ := (raw >>> 18) &&& 0x3FFF
  let tc14e : ℕ := if tc14 &&& 0x2000 ≠ 0 then tc14 ||| 0xC000 else tc14
  if fault then .nan else .num ((tc14e : ℚ) / 4)

/-! ## lib/core/actuator.py -/

/-- The four values the module string _state takes (actuator.py line 37). -/
inductive Phase where
  | IDLE | EXTEND | WAIT | RETRACT
deriving DecidableEq

/-- The actuator module state triple: _state, _dir, _until_ms
(actuator.py lines 37-44). Ticks are unbounded Python ints. -/
structure ActState where
  state : Phase
  dir : ℤ
  until_ms : Option ℤ
deriving DecidableEq

/-- A command issued to the drivers.control motor layer. -/
inductive MotorCmd where
  | setMotor (fwd rev : Bool)
  | stopMotor
deriving DecidableEq

/-- actuator.AUTO_EXTEND_MS = 10_000 -/
def AUTO_EXTEND_MS : ℤ := 10000

/-- actuator.AUTO_WAIT_MS = 1_000 -/
def AUTO_WAIT_MS : ℤ := 1000

/-- actuator.AUTO_RETRACT_MS = 10_000 -/
def AUTO_RETRACT_MS : ℤ := 10000

/-- actuator.init (actuator.py lines 47-57): IDLE, stopped, no deadline,
and a stop_motor command. -/
def act_init : ActState × List MotorCmd :=
  (⟨.IDLE, 0, none⟩, [.stopMotor])

/-- actuator._start_phase (actuator.py lines 62-91): set the new state, set
the direction and motor drive from the sign of dir_sign, and set the
deadline to `ticks_ms() + max(duration_ms, 0)` where `now` is the value
hw_esp32.ticks_ms() returns at the call. -/
def start_phase (new_state : Phase) (dir_sign duration_ms now : ℤ) :
    ActState × List MotorCmd :=
  if dir_sign > 0 then
    (⟨new_state, 1, some (now + max duration_ms 0)⟩, [.setMotor true false])
  else if dir_sign < 0 then
    (⟨new_state, -1, some (now + max duration_ms 0)⟩, [.setMotor false true])
  else
    (⟨new_state, 0, some (now + max duration_ms 0)⟩, [.stopMotor])

/-- actuator._start_auto_cycle (actuator.py lines 94-105): drop the trigger
unless the state is IDLE, else start the EXTEND phase. -/
def start_auto_cycle (s : ActState) (now : ℤ) : ActState × List MotorCmd :=
  if s.state ≠ .IDLE then (s, [])
  else start_phase .EXTEND 1 AUTO_EXTEND_MS now

/-- actuator.jog_fwd (actuator.py lines 110-119). -/
def jog_fwd (s : ActState) (now : ℤ) : ActState × List MotorCmd :=
  start_auto_cycle s now

/-- actuator.jog_rev (actuator.py lines 122-126). -/
def jog_rev (s : ActState) (now : ℤ) : ActState × List MotorCmd :=
  start_auto_cycle s now

/-- The elapsed test inside actuator.step (actuator.py line 143): the phase
deadline has expired iff NOT `now - _until_ms < 0`, computed over unbounded
Python integers (there is no reduction modulo a native width). -/
def step_elapsed_test (deadline now : ℤ) : Bool :=
  !(decide (now - deadline < 0))

/-- actuator.step (actuator.py lines 129-168): return unchanged when there
is no deadline or the state is IDLE or the deadline has not expired; else
EXTEND starts WAIT, WAIT starts RETRACT, and RETRACT (as well as the
defensive unknown-state branch, identical in the source) stops the motor,
returns to IDLE and clears the deadline. -/
def act_step (s : ActState) (now : ℤ) : ActState × List MotorCmd :=
  match s.until_ms with
  | none => (s, [])
  | some u =>
    if s.state = .IDLE then (s, [])
    else if step_elapsed_test u now then
      match s.state with
      | .EXTEND => start_phase .WAIT 0 AUTO_WAIT_MS now
      | .WAIT => start_phase .RETRACT (-1) AUTO_RETRACT_MS now
      | _ => (⟨.IDLE, 0, none⟩, [.stopMotor])
    else (s, [])

/-- actuator.get_dir (actuator.py lines 176-181). -/
def get_dir (s : ActState) : ℤ := s.dir

/-- actuator.is_moving (actuator.py lines 171-173). -/
def is_moving (s : ActState) : Bool := s.state ≠ .IDLE

/-- Modelled from the spec: the platform clock (MicroPython time.ticks_ms,
not part of src/) is "monotonically non-decreasing modulo wraparound at its
integer width" (spec section 3). TICKS_PERIOD is that width as a modulus:
the tick returned for a true elapsed time T milliseconds is T % TICKS_PERIOD. -/
def TICKS_PERIOD : ℤ := 2 ^ 30

/-- Modelled from the spec: elapsed as specified in section 4.1, "(now -
deadline) interpreted as signed >= 0 over the native integer width". The
difference is reduced to a representative in [-TICKS_PERIOD/2, TICKS_PERIOD/2). -/
def elapsed_spec (deadline now : ℤ) : Bool :=
  let d := (now - deadline) % TICKS_PERIOD
  decide (0 ≤ (if d < TICKS_PERIOD / 2 then d else d - TICKS_PERIOD))

/-! ## Gate lemmas on the brain decision -/

/-- C1: REFUTED BY THE CODE. The fail-closed claim requires allow_heat =
false whenever pressure is invalid; but with a valid in-window temperature
(80 degrees C) and the NaN pressure sentinel that the sensor layer produces
when the ADC read fails (read_pressure_kgcm2_hw none), step_once computes
allow_heat = true: the brain tests `p_kg is None`, which NaN is not, and
`nan >= max` is false, so the NaN reading passes both pressure checks. -/
theorem step_once_nan_pressure_allows_heat :
    read_pressure_kgcm2_hw none = PyFloat.nan ∧
    (step_once (some (.num 80)) (some (read_pressure_kgcm2_hw none)) true).allow_heat = true := by
  constructor
  · rfl
  · decide

/-- C2: REFUTED BY THE CODE. With a deadline stored near the top of the
clock modulus (deadline = 2^30 - 1) and now = 5 after the platform tick
counter has wrapped (true elapsed time past the deadline), the unbounded
subtraction test of actuator.step says "not elapsed", while the specified
native-width signed-difference test says "elapsed"; concretely, a machine
mid-EXTEND with that deadline does not advance at now = 5. -/
theorem step_elapsed_wraparound_bug :
    step_elapsed_test (2 ^ 30 - 1) 5 = false ∧
    elapsed_spec (2 ^ 30 - 1) 5 = true ∧
    (act_step ⟨.EXTEND, 1, some (2 ^ 30 - 1)⟩ 5).1 = ⟨.EXTEND, 1, some (2 ^ 30 - 1)⟩ := by
  refine ⟨by decide, by decide, ?_⟩
  decide

/-- C3: REFUTED BY THE CODE. For raw = 0xFFFC0000 (fault bit clear, 14-bit
field 0x3FFF whose sign bit is set), the claim requires the decode -0.25;
the code ORs 0xC000 into an unbounded non-negative Python int, which does
not make it negative, and returns 0xFFFF * 0.25 = 16383.75 instead. -/
theorem decode_tc_negative_bug :
    decode_tc_c_from_raw 0xFFFC0000 = PyFloat.num (65535/4) ∧
    (65535/4 : ℚ) ≠ -(1/4) := by
  constructor
  · have h1 : (0xFFFC0000 : ℕ) &&& 0x00010000 = 0 := by decide
    have h2 : ((0xFFFC0000 : ℕ) >>> 18) &&& 0x3FFF = 0x3FFF := by decide
    have h3 : ¬ ((0x3FFF : ℕ) &&& 0x2000 = 0) := by decide
    have h4 : (0x3FFF : ℕ) ||| 0xC000 = 65535 := by decide
    simp [decode_tc_c_from_raw, h1, h2, h3, h4]
  · norm_num

/-- C5: for every valid temperature reading t, the temperature gate of
brain.step_once allows heat iff 0 < t < config.APP_MAX_TEMP_C, with both
boundaries excluded: at t = 0 and at t = APP_MAX_TEMP_C the gate alone
already yields allow_heat = false. -/
theorem temp_gate_window (t : ℚ) :
    (temp_gate (some (.num t)) = true ↔ (0 < t ∧ t < APP_MAX_TEMP_C)) ∧
    temp_gate (some (.num 0)) = false ∧
    temp_gate (some (.num APP_MAX_TEMP_C)) = false := by
  refine ⟨?_, by decide, by decide⟩
  simp [temp_gate, PyFloat.lt]

/-- C5 witness: the gate at t = 80 inside the window. -/
theorem temp_gate_window_witness :
    temp_gate (some (.num 80)) = true ∧
    temp_gate (some (.num 0)) = false ∧
    temp_gate (some (.num APP_MAX_TEMP_C)) = false := by
  refine ⟨?_, (temp_gate_window 80).2.1, (temp_gate_window 80).2.2⟩
  exact (temp_gate_window 80).1.mpr (by norm_num [APP_MAX_TEMP_C])

/-- C6: for every decision of brain.step_once, the commanded SSR output is
allow_heat AND config.HEAT_ENABLE; with HEAT_ENABLE = false the SSR command
is always false; and the recorded allow_heat value does not depend on
HEAT_ENABLE. -/
theorem heater_kill_switch (t p : Option PyFloat) (e : Bool) :
    (step_once t p e).ssr_on = ((step_once t p e).allow_heat && e) ∧
    (step_once t p false).ssr_on = false ∧
    (step_once t p e).allow_heat = (step_once t p false).allow_heat := by
  cases e <;> simp [step_once]

/-- C7: every 32-bit thermocouple word whose composite fault bit (bit 16)
is set decodes to the NaN sentinel, whatever bits [31:18] hold. -/
theorem decode_tc_fault_invalid (raw : ℕ) (_h32 : raw < 2 ^ 32)
    (h : raw &&& 0x00010000 ≠ 0) :
    decode_tc_c_from_raw raw = PyFloat.nan := by
  simp [decode_tc_c_from_raw, h]

/-- C7 witness: word 0xFFFD0000 has the fault bit set and decodes to NaN. -/
theorem decode_tc_fault_invalid_witness :
    decode_tc_c_from_raw 0xFFFD0000 = PyFloat.nan :=
  decode_tc_fault_invalid 0xFFFD0000 (by decide) (by decide)

/-- C8: with a positive calibration voltage span, the voltage mapping hits
p_min at v_min, hits p_max at v_max, is the linear interpolation between
them on [v_min, v_max], and saturates at p_min below v_min and at p_max
above v_max instead of extrapolating. -/
theorem map_voltage_props (v_min v_max p_min p_max v : ℚ)
    (h : 0 < v_max - v_min) :
    map_voltage_to_kgcm2_cal v_min v_max p_min p_max v_min = .num p_min ∧
    map_voltage_to_kgcm2_cal v_min v_max p_min p_max v_max = .num p_max ∧
    (v_min ≤ v → v ≤ v_max →
      map_voltage_to_kgcm2_cal v_min v_max p_min p_max v
        = .num (p_min + (v - v_min) / (v_max - v_min) * (p_max - p_min))) ∧
    (v < v_min → map_voltage_to_kgcm2_cal v_min v_max p_min p_max v = .num p_min) ∧
    (v_max < v → map_voltage_to_kgcm2_cal v_min v_max p_min p_max v = .num p_max) := by
  have hnotle : ¬ (v_max - v_min ≤ 0) := not_le.mpr h
  have hne : v_max - v_min ≠ 0 := ne_of_gt h
  refine ⟨?_, ?_, fun hv1 hv2 => ?_, fun hv => ?_, fun hv => ?_⟩
  · simp only [map_voltage_to_kgcm2_cal, if_neg hnotle, sub_self, zero_div]
    norm_num
  · simp only [map_voltage_to_kgcm2_cal, if_neg hnotle, div_self hne]
    norm_num
  · have h0 : ¬ ((v - v_min) / (v_max - v_min) < 0) :=
      not_lt.mpr (div_nonneg (by linarith) (le_of_lt h))
    have h1 : ¬ ((v - v_min) / (v_max - v_min) > 1) :=
      not_lt.mpr ((div_le_one h).mpr (by linarith))
    simp only [map_voltage_to_kgcm2_cal, if_neg hnotle, if_neg h0, if_neg h1]
  · have h0 : (v - v_min) / (v_max - v_min) < 0 :=
      div_neg_of_neg_of_pos (by linarith) h
    simp only [map_voltage_to_kgcm2_cal, if_neg hnotle, if_pos h0]
    norm_num
  · have h1 : (1 : ℚ) < (v - v_min) / (v_max - v_min) :=
      (one_lt_div h).mpr (by linarith)
    have h0 : ¬ ((v - v_min) / (v_max - v_min) < 0) :=
      not_lt.mpr (le_of_lt (lt_trans one_pos h1))
    simp only [map_voltage_to_kgcm2_cal, if_neg hnotle, if_neg h0, if_pos h1]
    norm_num

/-- C8 witness: at the config calibration (span 2.997 - 0.334 > 0) the map
sends v_max to p_max and clamps v = 3 (above v_max) to p_max. -/
theorem map_voltage_props_witness :
    (0 : ℚ) < 2997/1000 - 334/1000 ∧
    map_voltage_to_kgcm2_cal (334/1000) (2997/1000) 0 (210/100) (2997/1000)
      = .num (210/100) ∧
    map_voltage_to_kgcm2_cal (334/1000) (2997/1000) 0 (210/100) 3
      = .num (210/100) :=
  ⟨by norm_num,
   (map_voltage_props (334/1000) (2997/1000) 0 (210/100) 3 (by norm_num)).2.1,
   (map_voltage_props (334/1000) (2997/1000) 0 (210/100) 3
     (by norm_num)).2.2.2.2 (by norm_num)⟩

/-! ## Actuator theorems -/

/-- C9: whenever the actuator is not IDLE, both jog entry points leave the
whole state triple unchanged and issue no motor command. -/
theorem jog_nonidle_noop (s : ActState) (now : ℤ) (h : s.state ≠ .IDLE) :
    jog_fwd s now = (s, []) ∧ jog_rev s now = (s, []) := by
  constructor <;> simp [jog_fwd, jog_rev, start_auto_cycle, h]

/-- C9 witness: a jog mid-EXTEND is dropped. -/
theorem jog_nonidle_noop_witness :
    jog_fwd ⟨.EXTEND, 1, some 42⟩ 7 = (⟨.EXTEND, 1, some 42⟩, []) ∧
    jog_rev ⟨.EXTEND, 1, some 42⟩ 7 = (⟨.EXTEND, 1, some 42⟩, []) :=
  jog_nonidle_noop ⟨.EXTEND, 1, some 42⟩ 7 (by decide)

/-- C4: from the initial IDLE state, one jog at time t0 followed by step()
calls at times at or past each phase deadline passes through exactly
EXTEND (dir +1), WAIT (dir 0), RETRACT (dir -1) and back to IDLE (dir 0),
with the deadlines t0 + AUTO_EXTEND_MS, t1 + AUTO_WAIT_MS and
t2 + AUTO_RETRACT_MS, the last transition clearing the deadline. -/
theorem actuator_full_cycle (t0 t1 t2 t3 : ℤ)
    (h1 : t0 + AUTO_EXTEND_MS ≤ t1) (h2 : t1 + AUTO_WAIT_MS ≤ t2)
    (h3 : t2 + AUTO_RETRACT_MS ≤ t3) :
    (jog_fwd act_init.1 t0).1 = ⟨.EXTEND, 1, some (t0 + AUTO_EXTEND_MS)⟩ ∧
    (act_step ⟨.EXTEND, 1, some (t0 + AUTO_EXTEND_MS)⟩ t1).1
      = ⟨.WAIT, 0, some (t1 + AUTO_WAIT_MS)⟩ ∧
    (act_step ⟨.WAIT, 0, some (t1 + AUTO_WAIT_MS)⟩ t2).1
      = ⟨.RETRACT, -1, some (t2 + AUTO_RETRACT_MS)⟩ ∧
    (act_step ⟨.RETRACT, -1, some (t2 + AUTO_RETRACT_MS)⟩ t3).1
      = ⟨.IDLE, 0, none⟩ := by
  have m1 : max AUTO_EXTEND_MS 0 = AUTO_EXTEND_MS := by decide
  have m2 : max AUTO_WAIT_MS 0 = AUTO_WAIT_MS := by decide
  have m3 : max AUTO_RETRACT_MS 0 = AUTO_RETRACT_MS := by decide
  have e1 : ¬ (t1 - (t0 + AUTO_EXTEND_MS) < 0) := by omega
  have e2 : ¬ (t2 - (t1 + AUTO_WAIT_MS) < 0) := by omega
  have e3 : ¬ (t3 - (t2 + AUTO_RETRACT_MS) < 0) := by omega
  refine ⟨?_, ?_, ?_, ?_⟩
  · simp [jog_fwd, start_auto_cycle, act_init, start_phase, m1]
  · simp [act_step, step_elapsed_test, e1, start_phase, m2]
  · simp [act_step, step_elapsed_test, e2, start_phase, m3]
  · simp [act_step, step_elapsed_test, e3]

/-- C4 witness: the cycle run at concrete times 0, 10000, 11000, 21000. -/
theorem actuator_full_cycle_witness :
    (jog_fwd act_init.1 0).1 = ⟨.EXTEND, 1, some 10000⟩ ∧
    (act_step ⟨.EXTEND, 1, some 10000⟩ 10000).1 = ⟨.WAIT, 0, some 11000⟩ ∧
    (act_step ⟨.WAIT, 0, some 11000⟩ 11000).1 = ⟨.RETRACT, -1, some 21000⟩ ∧
    (act_step ⟨.RETRACT, -1, some 21000⟩ 21000).1 = ⟨.IDLE, 0, none⟩ :=
  actuator_full_cycle 0 10000 11000 21000 (by decide) (by decide) (by decide)

/-- The invariant of C10: the direction is determined by the phase, and the
deadline is cleared exactly in IDLE. -/
def act_inv (s : ActState) : Prop :=
  (s.dir = 1 ↔ s.state = .EXTEND) ∧
  (s.dir = -1 ↔ s.state = .RETRACT) ∧
  (s.dir = 0 ↔ (s.state = .IDLE ∨ s.state = .WAIT)) ∧
  (s.until_ms = none ↔ s.state = .IDLE)

instance (s : ActState) : Decidable (act_inv s) := by
  unfold act_inv
  infer_instance

/-- C10: the invariant holds at init and is preserved by jog_fwd, jog_rev
and step, for every current time. -/
theorem act_inv_preserved (s : ActState) (now : ℤ) (h : act_inv s) :
    act_inv act_init.1 ∧ act_inv (jog_fwd s now).1 ∧ act_inv (jog_rev s now).1 ∧
    act_inv (act_step s now).1 := by
  obtain ⟨st, d, u⟩ := s
  have hjog : act_inv (start_auto_cycle ⟨st, d, u⟩ now).1 := by
    cases st
    case IDLE =>
      have : (start_auto_cycle ⟨Phase.IDLE, d, u⟩ now).1
          = ⟨.EXTEND, 1, some (now + AUTO_EXTEND_MS)⟩ := by
        have m1 : max AUTO_EXTEND_MS 0 = AUTO_EXTEND_MS := by decide
        simp [start_auto_cycle, start_phase, m1]
      rw [this]
      exact ⟨iff_of_true rfl rfl, iff_of_false (by norm_num) (by simp),
        iff_of_false (by norm_num) (by simp), iff_of_false (by simp) (by simp)⟩
    all_goals simpa [start_auto_cycle] using h
  refine ⟨by decide, hjog, hjog, ?_⟩
  cases u
  case none => simpa [act_step] using h
  case some t =>
    cases st
    case IDLE => simpa [act_step] using h
    case EXTEND =>
      cases hel : step_elapsed_test t now
      · simpa [act_step, hel] using h
      · have m2 : max AUTO_WAIT_MS 0 = AUTO_WAIT_MS := by decide
        have : (act_step ⟨Phase.EXTEND, d, some t⟩ now).1
            = ⟨.WAIT, 0, some (now + AUTO_WAIT_MS)⟩ := by
          simp [act_step, hel, start_phase, m2]
        rw [this]
        exact ⟨iff_of_false (by norm_num) (by simp), iff_of_false (by norm_num) (by simp),
          iff_of_true rfl (Or.inr rfl), iff_of_false (by simp) (by simp)⟩
    case WAIT =>
      cases hel : step_elapsed_test t now
      · simpa [act_step, hel] using h
      · have m3 : max AUTO_RETRACT_MS 0 = AUTO_RETRACT_MS := by decide
        have : (act_step ⟨Phase.WAIT, d, some t⟩ now).1
            = ⟨.RETRACT, -1, some (now + AUTO_RETRACT_MS)⟩ := by
          simp [act_step, hel, start_phase, m3]
        rw [this]
        exact ⟨iff_of_false (by norm_num) (by simp), iff_of_true rfl rfl,
          iff_of_false (by norm_num) (by simp), iff_of_false (by simp) (by simp)⟩
    case RETRACT =>
      cases hel : step_elapsed_test t now
      · simpa [act_step, hel] using h
      · have : (act_step ⟨Phase.RETRACT, d, some t⟩ now).1 = ⟨.IDLE, 0, none⟩ := by
          simp [act_step, hel]
        rw [this]
        decide

/-- C10 witness: the invariant holds mid-EXTEND and after a step past the
deadline from there. -/
theorem act_inv_preserved_witness :
    act_inv (⟨.EXTEND, 1, some 5⟩ : ActState) ∧
    act_inv (act_step ⟨.EXTEND, 1, some 5⟩ 99999).1 :=
  ⟨by decide, (act_inv_preserved ⟨.EXTEND, 1, some 5⟩ 99999 (by decide)).2.2.2⟩

end Autoclave
